import Mathlib

/-!
Formal model of the Devs-ColMex contact-form service.

The repository contains two alternative backend implementations of the same
two-endpoint HTTP API:

* the document-store variant (`src/backend/server.js`, Express + Mongoose), and
* the tabular variant (`src/unnamed/part_000`, Express + mysql2).

This file gives a shallow embedding of both request handlers
(`POST /api/mensajes` and `GET /api/mensajes`), of the persistence layers
they talk to (Mongoose schema setters/validators for the document variant,
the `mensajes_nuevos` table with its `VARCHAR(100)` columns for the tabular
variant), and of the boot sequences of the two server processes.  The
theorems at the end of the file settle behavioural properties of the two
handlers against this embedding.

Request-body fields are modelled as JavaScript values (`JVal`), because the
handlers' behaviour depends on JavaScript truthiness and on the fact that
`.trim()` is only defined on strings.
-/

/-- A JavaScript value as it can appear in a parsed JSON request-body field
(plus `undef` for an absent field).  `obj` stands for any object or array
value; the handlers never inspect objects beyond truthiness and `.trim`,
so one constructor suffices. -/
inductive JVal where
  | undef : JVal
  | null : JVal
  | str : String → JVal
  | num : Int → JVal
  | bool : Bool → JVal
  | obj : JVal
deriving DecidableEq, Repr

/-- JavaScript truthiness of a `JVal` (`""`, `0`, `false`, `null`,
`undefined` are falsy; objects are always truthy). -/
def JVal.truthy : JVal → Bool
  | .undef => false
  | .null => false
  | .str s => if s = "" then false else true
  | .num n => if n = 0 then false else true
  | .bool b => b
  | .obj => true

/-- `v` is `null` or `undefined` (the values short-circuited by `?.`). -/
def JVal.isNullish : JVal → Bool
  | .undef => true
  | .null => true
  | _ => false

/-- `v` is a string value. -/
def JVal.isString : JVal → Bool
  | .str _ => true
  | _ => false

/-- `v` is of the shape a well-formed JSON body would supply for a text
field: absent, `null`, or a string.  (Numbers, booleans and objects are
the subject of the non-string-field claims.) -/
def JVal.isTextual : JVal → Bool
  | .undef => true
  | .null => true
  | .str _ => true
  | _ => false

/-- Characters removed by `String.prototype.trim`; modelled by the usual
ASCII whitespace set (space, tab, carriage return, newline). -/
def jsTrimChars (l : List Char) : List Char :=
  ((l.dropWhile Char.isWhitespace).reverse.dropWhile Char.isWhitespace).reverse

/-- Model of JavaScript `s.trim()`: strip leading and trailing whitespace. -/
def jsTrim (s : String) : String :=
  String.mk (jsTrimChars s.data)

/-- Model of JavaScript `s.toLowerCase()` (applied by the Mongoose
`lowercase: true` setter on `email`). -/
def jsToLower (s : String) : String :=
  String.mk (s.data.map Char.toLower)

/-- Model of JavaScript `s.length` (used for the `maxlength: 100` schema
validator and the `VARCHAR(100)` column bound). -/
def jsLength (s : String) : Nat :=
  s.data.length

/-- The field is absent, `null`, or a string that is empty after trimming —
the condition under which both validators reject the request body. -/
def JVal.blankField : JVal → Bool
  | .undef => true
  | .null => true
  | .str s => if jsTrim s = "" then true else false
  | _ => false

example : jsTrim "  Juan  " = "Juan" := by decide
example : jsToLower " Ana@X.com" = " ana@x.com" := by decide
example : jsTrim "" = "" := by decide

/-!
## Document-store variant (`src/backend/server.js`)
-/

/-- A persisted document of the Mongoose `Mensaje` model.  `id` models the
backend-generated `_id` (as an abstract counter), `fecha` the server-assigned
`Date.now` default, a `Nat` timestamp. -/
structure MongoDoc where
  id : Nat
  nombre : String
  email : String
  mensaje : String
  fecha : Nat
deriving DecidableEq, Repr

/-- The state of the MongoDB collection: the stored documents, plus the next
generated identifier. -/
structure MongoState where
  docs : List MongoDoc
  nextId : Nat
deriving DecidableEq, Repr

/-- JSON body shape of the document-variant `POST /api/mensajes` responses
(`success`/`error`/`message`/`code`/`data.id`/`data.createdAt`); fields the
source does not set in a given response are `none`. -/
structure MongoPostBody where
  success : Bool
  error : Option String
  message : Option String
  code : Option String
  dataId : Option Nat
  dataCreatedAt : Option Nat
deriving DecidableEq, Repr

/-- An HTTP response of the document-variant `POST` handler. -/
structure MongoPostResp where
  status : Nat
  body : MongoPostBody
deriving DecidableEq, Repr

/-- server.js lines 148–153: `400 VALIDATION_ERROR`. -/
def mongoValidationErrorResp : MongoPostResp :=
  ⟨400, ⟨false, some "Todos los campos son obligatorios", none,
         some "VALIDATION_ERROR", none, none⟩⟩

/-- server.js lines 178–183: `500 DATABASE_ERROR` (the caught error's own
message is only logged, never placed in the body). -/
def mongoDbErrorResp : MongoPostResp :=
  ⟨500, ⟨false, some "No se pudo procesar la solicitud", none,
         some "DATABASE_ERROR", none, none⟩⟩

/-- server.js lines 168–175: `201` with the new document's id and `fecha`. -/
def mongoCreatedResp (id createdAt : Nat) : MongoPostResp :=
  ⟨201, ⟨true, none, some "Mensaje almacenado correctamente", none,
         some id, some createdAt⟩⟩

/-- Evaluation of the guard subexpression `!x?.trim()` (server.js line 147):
`?.` short-circuits `null`/`undefined` to `undefined` (falsy, so the negation
is `true`); on a string it trims and the negation tests emptiness; on any
other value the member call `.trim()` raises a `TypeError`, modelled as
`.error ()`. -/
def notOptTrimTruthy : JVal → Except Unit Bool
  | .undef => .ok true
  | .null => .ok true
  | .str s => .ok (if jsTrim s = "" then true else false)
  | _ => .error ()

/-- The whole guard `!nombre?.trim() || !email?.trim() || !mensaje?.trim()`
of server.js line 147, with JavaScript left-to-right short-circuit
evaluation; `.error` propagates a `TypeError` raised by a subterm. -/
def mongoGuard (nombre email mensaje : JVal) : Except Unit Bool :=
  match notOptTrimTruthy nombre with
  | .error e => .error e
  | .ok true => .ok true
  | .ok false =>
    match notOptTrimTruthy email with
    | .error e => .error e
    | .ok true => .ok true
    | .ok false => notOptTrimTruthy mensaje

/-- The document-variant `POST /api/mensajes` handler (server.js lines
142–184).  `dbFail = some msg` means the `save()` call fails at the database
with error message `msg` (connection loss, driver error, …); `none` means
the write succeeds.  `now` is the `Date.now` value used for the `fecha`
schema default.

The Mongoose layer is part of the model: the handler passes the trimmed
fields to the `Mensaje` constructor (lines 156–160); the schema then applies
its setters — `trim` on `nombre` and `email` (idempotent here), `lowercase`
on `email` — and `save()` runs the `maxlength: 100` validator on `nombre`
(line 101) before writing.  A validator failure rejects the promise exactly
like a database failure, and is caught by the same `catch` (line 176). -/
def mongoPost (st : MongoState) (now : Nat) (dbFail : Option String)
    (nombre email mensaje : JVal) : MongoPostResp × MongoState :=
  match mongoGuard nombre email mensaje with
  | .error _ => (mongoDbErrorResp, st)
  | .ok true => (mongoValidationErrorResp, st)
  | .ok false =>
    match nombre, email, mensaje with
    | .str n, .str e, .str m =>
      let nv := jsTrim n
      let ev := jsToLower (jsTrim e)
      let mv := jsTrim m
      if 100 < jsLength nv then (mongoDbErrorResp, st)
      else
        match dbFail with
        | some _ => (mongoDbErrorResp, st)
        | none =>
          (mongoCreatedResp st.nextId now,
           ⟨st.docs ++ [⟨st.nextId, nv, ev, mv, now⟩], st.nextId + 1⟩)
    | _, _, _ => (mongoDbErrorResp, st)

/-- JSON shape of the document-variant `GET /api/mensajes` responses. -/
structure MongoGetResp where
  status : Nat
  success : Bool
  error : Option String
  code : Option String
  count : Option Nat
  data : Option (List MongoDoc)
deriving DecidableEq, Repr

/-- server.js lines 219–224: `403 UNAUTHORIZED`. -/
def mongoForbiddenResp : MongoGetResp :=
  ⟨403, false, some "Autenticación fallida", some "UNAUTHORIZED", none, none⟩

/-- server.js lines 237–241: `500 DATABASE_ERROR` on a query failure. -/
def mongoGetErrorResp : MongoGetResp :=
  ⟨500, false, some "Error en la consulta", some "DATABASE_ERROR", none, none⟩

/-- server.js lines 230–234: `200` with count metadata and the data. -/
def mongoOkResp (mensajes : List MongoDoc) : MongoGetResp :=
  ⟨200, true, none, none, some mensajes.length, some mensajes⟩

/-- Insert `x` into a list that is sorted descending on `key`, keeping it
sorted (earlier elements win ties, as a stable order). -/
def insertByKeyDesc (key : α → Nat) (x : α) : List α → List α
  | [] => [x]
  | y :: ys =>
    if key x ≤ key y then y :: insertByKeyDesc key x ys
    else x :: y :: ys

/-- Sort a list descending on `key` — the model of the backend's
`ORDER BY fecha DESC` / `.sort(\x7b fecha: -1 \x7d)` result order. -/
def sortByKeyDesc (key : α → Nat) : List α → List α
  | [] => []
  | x :: xs => insertByKeyDesc key x (sortByKeyDesc key xs)

/-- The list is in non-increasing `key` order. -/
def sortedDescBy (key : α → Nat) : List α → Prop
  | [] => True
  | [_] => True
  | x :: y :: rest => key y ≤ key x ∧ sortedDescBy key (y :: rest)

/-- The document-variant `GET /api/mensajes` handler (server.js lines
211–243).  `clave` is the `?clave=` query parameter (`none` when absent),
`secret` the configured `ADMIN_SECRET`.  The returned `Bool` records whether
a find query was issued against the collection.  Authorization is
server.js line 216: `clave && clave === process.env.ADMIN_SECRET`. -/
def mongoGet (st : MongoState) (dbFail : Option String) (clave : Option String)
    (secret : String) : MongoGetResp × Bool :=
  let isAuthorized :=
    match clave with
    | none => false
    | some c => (if c = "" then false else true) && (if c = secret then true else false)
  if isAuthorized then
    match dbFail with
    | some _ => (mongoGetErrorResp, true)
    | none => (mongoOkResp (sortByKeyDesc MongoDoc.fecha st.docs), true)
  else (mongoForbiddenResp, false)

/-!
## Tabular variant (`src/unnamed/part_000`)
-/

/-- A row of the `mensajes_nuevos` table (part_000 lines 64–72).  `id` is the
`AUTO_INCREMENT` primary key, `fecha` the `CURRENT_TIMESTAMP` default. -/
structure MysqlRow where
  id : Nat
  nombre : String
  email : String
  mensaje : String
  fecha : Nat
deriving DecidableEq, Repr

/-- The state of the `mensajes_nuevos` table: the stored rows and the next
auto-increment value. -/
structure MysqlState where
  rows : List MysqlRow
  nextId : Nat
deriving DecidableEq, Repr

/-- JSON body shape of the tabular-variant `POST` responses. -/
structure MysqlPostBody where
  error : Option String
  message : Option String
  id : Option Nat
deriving DecidableEq, Repr

/-- part_000 lines 118–120: the `400` validation body. -/
def mysqlValidationBody : MysqlPostBody :=
  ⟨some "Todos los campos son obligatorios y no pueden estar vacíos.", none, none⟩

/-- part_000 lines 133–135: the `500` body on an insert error (the MySQL
error's own message is only logged, never placed in the body). -/
def mysqlStorageErrorBody : MysqlPostBody :=
  ⟨some "Error interno del servidor. No se pudo guardar el mensaje.", none, none⟩

/-- part_000 lines 142–145: the `201` body with the `insertId`. -/
def mysqlCreatedBody (id : Nat) : MysqlPostBody :=
  ⟨none, some "Mensaje guardado con éxito.", some id⟩

/-- Outcome of the tabular `POST` handler: an HTTP response, or a synchronous
`TypeError` escaping the handler (the handler has no try/catch and is not
`async`, so a `.trim()` call on a non-string propagates out of it). -/
inductive MysqlPostOutcome where
  | resp (status : Nat) (body : MysqlPostBody)
  | thrown
deriving DecidableEq, Repr

/-- Evaluation of `x.trim()` without optional chaining (part_000 lines
99–101 and 129): returns the trimmed string, or raises a `TypeError`
(`.error ()`) when `x` is not a string — including on `null`. -/
def trimCall : JVal → Except Unit String
  | .str s => .ok (jsTrim s)
  | _ => .error ()

/-- `validarDatos` (part_000 lines 94–103):
`nombre && email && mensaje && nombre.trim() !== "" && email.trim() !== ""
&& mensaje.trim() !== ""`, with JavaScript left-to-right short-circuiting.
The caller only tests the result's truthiness (`if (!validarDatos(...))`),
so the JavaScript value it returns is collapsed to the boolean the caller
sees; a `TypeError` raised by a `.trim()` call is `.error ()`. -/
def validarDatos (nombre email mensaje : JVal) : Except Unit Bool :=
  if nombre.truthy then
    if email.truthy then
      if mensaje.truthy then
        match trimCall nombre with
        | .error e => .error e
        | .ok a =>
          if a = "" then .ok false
          else
            match trimCall email with
            | .error e => .error e
            | .ok b =>
              if b = "" then .ok false
              else
                match trimCall mensaje with
                | .error e => .error e
                | .ok c => .ok (if c = "" then false else true)
      else .ok false
    else .ok false
  else .ok false

/-- The tabular-variant `POST /api/mensajes` handler (part_000 lines
113–148).  `dbFail = some msg` means `db.query` reports error `msg` to the
callback; `none` means the insert reaches the table.  The table's column
constraints are part of the model: `nombre` and `email` are `VARCHAR(100)`
(part_000 lines 67–68), so — with MySQL in its default strict SQL mode — an
insert whose value exceeds 100 characters fails with a data-too-long error,
which the callback maps to the same `500` body as any other query error. -/
def mysqlPost (st : MysqlState) (now : Nat) (dbFail : Option String)
    (nombre email mensaje : JVal) : MysqlPostOutcome × MysqlState :=
  match validarDatos nombre email mensaje with
  | .error _ => (.thrown, st)
  | .ok false => (.resp 400 mysqlValidationBody, st)
  | .ok true =>
    match nombre, email, mensaje with
    | .str n, .str e, .str m =>
      let nv := jsTrim n
      let ev := jsTrim e
      let mv := jsTrim m
      match dbFail with
      | some _ => (.resp 500 mysqlStorageErrorBody, st)
      | none =>
        if 100 < jsLength nv ∨ 100 < jsLength ev then
          (.resp 500 mysqlStorageErrorBody, st)
        else
          (.resp 201 (mysqlCreatedBody st.nextId),
           ⟨st.rows ++ [⟨st.nextId, nv, ev, mv, now⟩], st.nextId + 1⟩)
    | _, _, _ => (.thrown, st)

/-- Responses of the tabular-variant `GET /api/mensajes` handler. -/
inductive MysqlGetResp where
  | forbidden
  | serverError
  | ok (rows : List MysqlRow)
deriving DecidableEq, Repr

/-- The HTTP status of each tabular `GET` response (part_000 lines 163–178). -/
def MysqlGetResp.status : MysqlGetResp → Nat
  | .forbidden => 403
  | .serverError => 500
  | .ok _ => 200

/-- The tabular-variant `GET /api/mensajes` handler (part_000 lines
157–180).  Authorization is line 162: `clave !== process.env.ADMIN_SECRET`
(an absent parameter is `undefined`, never equal to the configured secret
string).  The returned `Bool` records whether a `SELECT` was issued. -/
def mysqlGet (st : MysqlState) (dbFail : Option String) (clave : Option String)
    (secret : String) : MysqlGetResp × Bool :=
  let matchesSecret :=
    match clave with
    | none => false
    | some c => if c = secret then true else false
  if matchesSecret then
    match dbFail with
    | some _ => (.serverError, true)
    | none => (.ok (sortByKeyDesc MysqlRow.fecha st.rows), true)
  else (.forbidden, false)

/-!
## Boot sequences

Both variants start the HTTP listener from straight-line module code while
the database connection is established asynchronously, so the order of boot
events is fixed by the JavaScript execution model: the synchronous module
code (which includes `app.listen`) runs to completion before the connection
outcome's callback can run.
-/

/-- An observable event of a server process's boot sequence. -/
inductive BootEvent where
  | listen
  | connectOk
  | connectFail
  | exitProc
deriving DecidableEq, Repr

/-- Boot trace of the document variant (server.js): `mongoose.connect` is
initiated (lines 60–65), `app.listen` runs synchronously (line 271), and the
promise settles afterwards; on failure the `catch` (lines 69–72) only logs —
it never calls `process.exit`, and the listener keeps serving. -/
def mongoBootTrace (connFails : Bool) : List BootEvent :=
  [.listen] ++ (if connFails then [.connectFail] else [.connectOk])

/-- Boot trace of the tabular variant (part_000): `db.connect` is initiated
(line 49), `app.listen` runs synchronously (line 186), and the connect
callback fires afterwards; on failure it calls `process.exit(1)`
(line 52). -/
def mysqlBootTrace (connFails : Bool) : List BootEvent :=
  [.listen] ++ (if connFails then [.connectFail, .exitProc] else [.connectOk])

/-- The supplied credential is absent, or a string different from the
configured secret. -/
def credMismatch (clave : Option String) (secret : String) : Bool :=
  match clave with
  | none => true
  | some c => if c = secret then false else true

/-!
## Helper lemmas
-/

theorem jsTrim_empty : jsTrim "" = "" := rfl

theorem sortedDescBy_insertByKeyDesc (key : α → Nat) (x : α) (l : List α)
    (h : sortedDescBy key l) : sortedDescBy key (insertByKeyDesc key x l) := by
  induction l with
  | nil => simp [insertByKeyDesc, sortedDescBy]
  | cons y ys ih =>
    simp only [insertByKeyDesc]
    by_cases hxy : key x ≤ key y
    · rw [if_pos hxy]
      cases ys with
      | nil => exact ⟨hxy, trivial⟩
      | cons z zs =>
        have hzy : key z ≤ key y := h.1
        have h2 := ih h.2
        simp only [insertByKeyDesc] at h2 ⊢
        by_cases hxz : key x ≤ key z
        · rw [if_pos hxz] at h2 ⊢
          exact ⟨hzy, h2⟩
        · rw [if_neg hxz] at h2 ⊢
          exact ⟨hxy, h2⟩
    · rw [if_neg hxy]
      exact ⟨Nat.le_of_lt (Nat.lt_of_not_le hxy), h⟩

theorem sortedDescBy_sortByKeyDesc (key : α → Nat) (l : List α) :
    sortedDescBy key (sortByKeyDesc key l) := by
  induction l with
  | nil => trivial
  | cons x xs ih => exact sortedDescBy_insertByKeyDesc key x _ ih

theorem notOptTrimTruthy_textual (v : JVal) (h : v.isTextual = true) :
    notOptTrimTruthy v = .ok v.blankField := by
  cases v <;> simp_all [notOptTrimTruthy, JVal.isTextual, JVal.blankField]

theorem mongoGuard_textual (a b c : JVal) (ha : a.isTextual = true)
    (hb : b.isTextual = true) (hc : c.isTextual = true) :
    mongoGuard a b c = .ok (a.blankField || b.blankField || c.blankField) := by
  simp only [mongoGuard, notOptTrimTruthy_textual a ha, notOptTrimTruthy_textual b hb,
    notOptTrimTruthy_textual c hc]
  cases a.blankField <;> cases b.blankField <;> cases c.blankField <;> rfl

set_option linter.unnecessarySeqFocus false in
theorem validarDatos_textual (a b c : JVal) (ha : a.isTextual = true)
    (hb : b.isTextual = true) (hc : c.isTextual = true) :
    validarDatos a b c = .ok (!(a.blankField || b.blankField || c.blankField)) := by
  cases a <;> cases b <;> cases c <;>
    simp_all [validarDatos, JVal.truthy, JVal.blankField, JVal.isTextual, trimCall,
      jsTrim_empty] <;>
    (try split_ifs <;> simp_all [jsTrim_empty])

theorem mongoGuard_valid_strings (n e m : String) (hn : jsTrim n ≠ "")
    (he : jsTrim e ≠ "") (hm : jsTrim m ≠ "") :
    mongoGuard (.str n) (.str e) (.str m) = .ok false := by
  simp [mongoGuard, notOptTrimTruthy, hn, he, hm]

theorem validarDatos_valid_strings (n e m : String) (hn : jsTrim n ≠ "")
    (he : jsTrim e ≠ "") (hm : jsTrim m ≠ "") :
    validarDatos (.str n) (.str e) (.str m) = .ok true := by
  have hn' : n ≠ "" := fun h => hn (by rw [h]; rfl)
  have he' : e ≠ "" := fun h => he (by rw [h]; rfl)
  have hm' : m ≠ "" := fun h => hm (by rw [h]; rfl)
  simp [validarDatos, JVal.truthy, trimCall, hn', he', hm', hn, he, hm]

theorem mongoPost_success (st : MongoState) (now : Nat) (n e m : String)
    (hn : jsTrim n ≠ "") (he : jsTrim e ≠ "") (hm : jsTrim m ≠ "")
    (hnl : jsLength (jsTrim n) ≤ 100) :
    mongoPost st now none (.str n) (.str e) (.str m) =
      (mongoCreatedResp st.nextId now,
       ⟨st.docs ++ [⟨st.nextId, jsTrim n, jsToLower (jsTrim e), jsTrim m, now⟩],
        st.nextId + 1⟩) := by
  simp [mongoPost, mongoGuard_valid_strings n e m hn he hm, Nat.not_lt.mpr hnl]

theorem mysqlPost_success (st : MysqlState) (now : Nat) (n e m : String)
    (hn : jsTrim n ≠ "") (he : jsTrim e ≠ "") (hm : jsTrim m ≠ "")
    (hnl : jsLength (jsTrim n) ≤ 100) (hel : jsLength (jsTrim e) ≤ 100) :
    mysqlPost st now none (.str n) (.str e) (.str m) =
      (.resp 201 (mysqlCreatedBody st.nextId),
       ⟨st.rows ++ [⟨st.nextId, jsTrim n, jsTrim e, jsTrim m, now⟩],
        st.nextId + 1⟩) := by
  have hb : ¬(100 < jsLength (jsTrim n) ∨ 100 < jsLength (jsTrim e)) := by
    push_neg
    exact ⟨hnl, hel⟩
  simp [mysqlPost, validarDatos_valid_strings n e m hn he hm, hb]

theorem mongoPost_dbfail (st : MongoState) (now : Nat) (msg : String)
    (n e m : String) (hn : jsTrim n ≠ "") (he : jsTrim e ≠ "") (hm : jsTrim m ≠ "") :
    mongoPost st now (some msg) (.str n) (.str e) (.str m) = (mongoDbErrorResp, st) := by
  by_cases hl : 100 < jsLength (jsTrim n) <;>
    simp [mongoPost, mongoGuard_valid_strings n e m hn he hm, hl]

theorem mysqlPost_dbfail (st : MysqlState) (now : Nat) (msg : String)
    (n e m : String) (hn : jsTrim n ≠ "") (he : jsTrim e ≠ "") (hm : jsTrim m ≠ "") :
    mysqlPost st now (some msg) (.str n) (.str e) (.str m) =
      (.resp 500 mysqlStorageErrorBody, st) := by
  simp [mysqlPost, validarDatos_valid_strings n e m hn he hm]

/-!
## Claims
-/

/-- C1: for every `POST /api/mensajes` request in which any of the three
fields (nombre, email, mensaje) is absent, `null`, or empty after trimming,
both variants return the 400 validation response and the storage state is
unchanged — no insert is attempted (the result does not depend on the
storage outcome parameter, and no Submission is created). -/
theorem c1_blank_field_rejected (stM : MongoState) (stS : MysqlState) (now : Nat)
    (dbM dbS : Option String) (nombre email mensaje : JVal)
    (htex : (nombre.isTextual && email.isTextual && mensaje.isTextual) = true)
    (hblank : (nombre.blankField || email.blankField || mensaje.blankField) = true) :
    mongoPost stM now dbM nombre email mensaje = (mongoValidationErrorResp, stM) ∧
    mongoValidationErrorResp.status = 400 ∧
    mysqlPost stS now dbS nombre email mensaje = (.resp 400 mysqlValidationBody, stS) := by
  obtain ⟨⟨ha, hb⟩, hc⟩ :
      (nombre.isTextual = true ∧ email.isTextual = true) ∧ mensaje.isTextual = true := by
    simpa [Bool.and_eq_true] using htex
  refine ⟨?_, rfl, ?_⟩
  · simp [mongoPost, mongoGuard_textual nombre email mensaje ha hb hc, hblank]
  · simp [mysqlPost, validarDatos_textual nombre email mensaje ha hb hc, hblank]

theorem c1_witness :
    (((JVal.str "  ").isTextual && (JVal.str "ana@x.com").isTextual &&
        (JVal.str "Hola").isTextual) = true) ∧
    (((JVal.str "  ").blankField || (JVal.str "ana@x.com").blankField ||
        (JVal.str "Hola").blankField) = true) ∧
    mongoPost ⟨[], 0⟩ 9 (some "down") (.str "  ") (.str "ana@x.com") (.str "Hola") =
      (mongoValidationErrorResp, ⟨[], 0⟩) ∧
    mysqlPost ⟨[], 1⟩ 9 (some "down") (.str "  ") (.str "ana@x.com") (.str "Hola") =
      (.resp 400 mysqlValidationBody, ⟨[], 1⟩) :=
  ⟨by decide, by decide,
   (c1_blank_field_rejected ⟨[], 0⟩ ⟨[], 1⟩ 9 (some "down") (some "down")
      (.str "  ") (.str "ana@x.com") (.str "Hola") (by decide) (by decide)).1,
   (c1_blank_field_rejected ⟨[], 0⟩ ⟨[], 1⟩ 9 (some "down") (some "down")
      (.str "  ") (.str "ana@x.com") (.str "Hola") (by decide) (by decide)).2.2⟩

/-- C2 counterexample: in the document variant the Mongoose schema's
`lowercase: true` setter rewrites `email`, so for the accepted valid triple
`("Ana", " Ana@Example.COM ", "Hola, prueba")` the persisted email is
`"ana@example.com"`, which differs from the trimmed input
`"Ana@Example.COM"` — refuting "the persisted values equal the trimmed
inputs exactly in both storage-backend variants". -/
theorem c2_counterexample :
    (mongoPost ⟨[], 0⟩ 7 none (.str "Ana") (.str " Ana@Example.COM ")
        (.str "Hola, prueba")).2.docs.map MongoDoc.email = ["ana@example.com"] ∧
    jsTrim " Ana@Example.COM " = "Ana@Example.COM" ∧
    ("ana@example.com" : String) ≠ "Ana@Example.COM" := by decide

/-- C2 amended: for every valid accepted triple, the persisted `nombre` and
`mensaje` equal the trimmed inputs in both variants, and the persisted
`email` equals the trimmed input in the tabular variant but the *lowercased*
trimmed input in the document variant. -/
theorem c2_amended_trimmed_persisted (stM : MongoState) (stS : MysqlState)
    (now : Nat) (n e m : String)
    (hn : jsTrim n ≠ "") (he : jsTrim e ≠ "") (hm : jsTrim m ≠ "")
    (hnl : jsLength (jsTrim n) ≤ 100) (hel : jsLength (jsTrim e) ≤ 100) :
    (mysqlPost stS now none (.str n) (.str e) (.str m)).2.rows =
      stS.rows ++ [⟨stS.nextId, jsTrim n, jsTrim e, jsTrim m, now⟩] ∧
    (mongoPost stM now none (.str n) (.str e) (.str m)).2.docs =
      stM.docs ++ [⟨stM.nextId, jsTrim n, jsToLower (jsTrim e), jsTrim m, now⟩] :=
  ⟨by rw [mysqlPost_success stS now n e m hn he hm hnl hel],
   by rw [mongoPost_success stM now n e m hn he hm hnl]⟩

theorem c2_amended_witness :
    jsTrim " Juan " ≠ "" ∧ jsTrim "a@b.co" ≠ "" ∧ jsTrim " Hola " ≠ "" ∧
    jsLength (jsTrim " Juan ") ≤ 100 ∧ jsLength (jsTrim "a@b.co") ≤ 100 ∧
    (mysqlPost ⟨[], 1⟩ 4 none (.str " Juan ") (.str "a@b.co") (.str " Hola ")).2.rows =
      [⟨1, "Juan", "a@b.co", "Hola", 4⟩] ∧
    (mongoPost ⟨[], 0⟩ 4 none (.str " Juan ") (.str "a@b.co") (.str " Hola ")).2.docs =
      [⟨0, "Juan", "a@b.co", "Hola", 4⟩] :=
  ⟨by decide, by decide, by decide, by decide, by decide,
   by
    have h := (c2_amended_trimmed_persisted ⟨[], 0⟩ ⟨[], 1⟩ 4 " Juan " "a@b.co" " Hola "
      (by decide) (by decide) (by decide) (by decide) (by decide)).1
    simpa using h,
   by
    have h := (c2_amended_trimmed_persisted ⟨[], 0⟩ ⟨[], 1⟩ 4 " Juan " "a@b.co" " Hola "
      (by decide) (by decide) (by decide) (by decide) (by decide)).2
    simpa using h⟩

/-- C3: for every `GET /api/mensajes` whose credential is absent or not
string-equal to the configured secret (this covers the empty string and the
secret with trailing whitespace), both variants answer 403 and issue no
storage read. -/
theorem c3_credential_mismatch_forbidden (stM : MongoState) (stS : MysqlState)
    (dbM dbS : Option String) (clave : Option String) (secret : String)
    (h : credMismatch clave secret = true) :
    mongoGet stM dbM clave secret = (mongoForbiddenResp, false) ∧
    mongoForbiddenResp.status = 403 ∧
    mysqlGet stS dbS clave secret = (.forbidden, false) ∧
    MysqlGetResp.status .forbidden = 403 := by
  cases clave with
  | none => exact ⟨rfl, rfl, rfl, rfl⟩
  | some c =>
    have hc : ¬ c = secret := by
      intro hcs
      simp [credMismatch, hcs] at h
    refine ⟨?_, rfl, ?_, rfl⟩
    · simp [mongoGet, hc]
    · simp [mysqlGet, hc]

theorem c3_witness :
    credMismatch (some "hunter2 ") "hunter2" = true ∧
    mongoGet ⟨[], 0⟩ none (some "hunter2 ") "hunter2" = (mongoForbiddenResp, false) ∧
    mysqlGet ⟨[], 1⟩ none (some "hunter2 ") "hunter2" = (.forbidden, false) :=
  ⟨by decide,
   (c3_credential_mismatch_forbidden ⟨[], 0⟩ ⟨[], 1⟩ none none
      (some "hunter2 ") "hunter2" (by decide)).1,
   (c3_credential_mismatch_forbidden ⟨[], 0⟩ ⟨[], 1⟩ none none
      (some "hunter2 ") "hunter2" (by decide)).2.2.1⟩

/-- C4: for every storage state (any sequence of prior inserts, in any
order), the collection returned by the authorized admin listing is the
`fecha`-descending sort of the stored records, and that output is sorted
descending by `fecha`, in both variants. -/
theorem c4_listing_sorted_desc (stM : MongoState) (stS : MysqlState)
    (secret : String) (hs : secret ≠ "") :
    (mongoGet stM none (some secret) secret).1.data =
      some (sortByKeyDesc MongoDoc.fecha stM.docs) ∧
    sortedDescBy MongoDoc.fecha (sortByKeyDesc MongoDoc.fecha stM.docs) ∧
    (mysqlGet stS none (some secret) secret).1 =
      .ok (sortByKeyDesc MysqlRow.fecha stS.rows) ∧
    sortedDescBy MysqlRow.fecha (sortByKeyDesc MysqlRow.fecha stS.rows) := by
  refine ⟨?_, sortedDescBy_sortByKeyDesc _ _, ?_, sortedDescBy_sortByKeyDesc _ _⟩
  · simp [mongoGet, hs, mongoOkResp]
  · simp [mysqlGet]

theorem c4_witness :
    ("llave" : String) ≠ "" ∧
    (mongoGet ⟨[⟨0, "a", "a@x.co", "hola", 3⟩, ⟨1, "b", "b@x.co", "buen día", 8⟩], 2⟩
        none (some "llave") "llave").1.data =
      some (sortByKeyDesc MongoDoc.fecha
        [⟨0, "a", "a@x.co", "hola", 3⟩, ⟨1, "b", "b@x.co", "buen día", 8⟩]) ∧
    sortedDescBy MongoDoc.fecha (sortByKeyDesc MongoDoc.fecha
      [⟨0, "a", "a@x.co", "hola", 3⟩, ⟨1, "b", "b@x.co", "buen día", 8⟩]) :=
  ⟨by decide,
   (c4_listing_sorted_desc
      ⟨[⟨0, "a", "a@x.co", "hola", 3⟩, ⟨1, "b", "b@x.co", "buen día", 8⟩], 2⟩
      ⟨[], 1⟩ "llave" (by decide)).1,
   (c4_listing_sorted_desc
      ⟨[⟨0, "a", "a@x.co", "hola", 3⟩, ⟨1, "b", "b@x.co", "buen día", 8⟩], 2⟩
      ⟨[], 1⟩ "llave" (by decide)).2.1⟩

/-- C5 counterexample: in the document variant a failed boot connection does
not terminate the process (its `catch` only logs) and the listener has
already started, so the claim "the process terminates immediately and never
begins accepting requests" fails on the code. -/
theorem c5_counterexample :
    BootEvent.listen ∈ mongoBootTrace true ∧
    BootEvent.exitProc ∉ mongoBootTrace true := by decide

/-- C5 amended: in both variants the listener starts (synchronously) before
the connection outcome is known — the first boot event is `listen` whether
or not the connection fails; on failure the tabular variant does terminate
via `process.exit(1)`, while the document variant never terminates and keeps
serving against the unconnected backend. -/
theorem c5_amended_boot_order :
    (∀ b, (mongoBootTrace b).head? = some BootEvent.listen ∧
          (mysqlBootTrace b).head? = some BootEvent.listen) ∧
    BootEvent.exitProc ∈ mysqlBootTrace true ∧
    (∀ b, BootEvent.exitProc ∉ mongoBootTrace b) := by decide

/-- A 101-character name, for the length-bound counterexamples. -/
def longName : String := String.mk (List.replicate 101 'a')

/-- A 101-character email, for the tabular length-bound witness. -/
def longEmail : String := String.mk (List.replicate 101 'b')

/-- C6 counterexample: the Mongoose schema declares `maxlength: 100` on
`nombre` (server.js line 101), so in the document variant an insert with a
trimmed 101-character name does not succeed: `save()` rejects, the handler
answers 500, and no document is created — refuting "name is unbounded in
the document variant, so such an insert succeeds". -/
theorem c6_counterexample :
    jsLength (jsTrim longName) = 101 ∧
    mongoPost ⟨[], 0⟩ 3 none (.str longName) (.str "a@b.co") (.str "Hola") =
      (mongoDbErrorResp, ⟨[], 0⟩) ∧
    mongoDbErrorResp.status = 500 := by decide

/-- C6 amended: the name field is bounded to at most 100 units in *both*
variants — via `maxlength: 100` in the document schema and `VARCHAR(100)` in
the tabular table — so an insert whose trimmed name exceeds 100 characters
fails (500, state unchanged) in the document variant regardless of the
storage outcome, and in the tabular variant as well. -/
theorem c6_amended_name_bounded (stM : MongoState) (stS : MysqlState) (now : Nat)
    (dbM : Option String) (n e m : String)
    (hn : jsTrim n ≠ "") (he : jsTrim e ≠ "") (hm : jsTrim m ≠ "")
    (hlong : 100 < jsLength (jsTrim n)) :
    mongoPost stM now dbM (.str n) (.str e) (.str m) = (mongoDbErrorResp, stM) ∧
    mysqlPost stS now none (.str n) (.str e) (.str m) =
      (.resp 500 mysqlStorageErrorBody, stS) := by
  constructor
  · simp [mongoPost, mongoGuard_valid_strings n e m hn he hm, hlong]
  · simp [mysqlPost, validarDatos_valid_strings n e m hn he hm, hlong]

theorem c6_amended_witness :
    jsTrim longName ≠ "" ∧ jsTrim "a@b.co" ≠ "" ∧ jsTrim "Hola" ≠ "" ∧
    100 < jsLength (jsTrim longName) ∧
    mysqlPost ⟨[], 1⟩ 3 none (.str longName) (.str "a@b.co") (.str "Hola") =
      (.resp 500 mysqlStorageErrorBody, ⟨[], 1⟩) :=
  ⟨by decide, by decide, by decide, by decide,
   (c6_amended_name_bounded ⟨[], 0⟩ ⟨[], 1⟩ 3 none longName "a@b.co" "Hola"
      (by decide) (by decide) (by decide) (by decide)).2⟩

/-- C7: for every valid accepted triple, if the storage insert fails then
both variants answer 500 with a fixed generic body — the same response for
every internal error message, so no detail is exposed — and the state is
unchanged (zero Submissions created); if the insert succeeds, exactly one
Submission is added. -/
theorem c7_storage_error_isolated (stM : MongoState) (stS : MysqlState) (now : Nat)
    (n e m : String)
    (hn : jsTrim n ≠ "") (he : jsTrim e ≠ "") (hm : jsTrim m ≠ "")
    (hnl : jsLength (jsTrim n) ≤ 100) (hel : jsLength (jsTrim e) ≤ 100) :
    (∀ msg, mongoPost stM now (some msg) (.str n) (.str e) (.str m) =
      (mongoDbErrorResp, stM)) ∧
    mongoDbErrorResp.status = 500 ∧
    (∀ msg, mysqlPost stS now (some msg) (.str n) (.str e) (.str m) =
      (.resp 500 mysqlStorageErrorBody, stS)) ∧
    (mongoPost stM now none (.str n) (.str e) (.str m)).2.docs.length =
      stM.docs.length + 1 ∧
    (mysqlPost stS now none (.str n) (.str e) (.str m)).2.rows.length =
      stS.rows.length + 1 := by
  refine ⟨fun msg => mongoPost_dbfail stM now msg n e m hn he hm, rfl,
    fun msg => mysqlPost_dbfail stS now msg n e m hn he hm, ?_, ?_⟩
  · rw [mongoPost_success stM now n e m hn he hm hnl]
    simp
  · rw [mysqlPost_success stS now n e m hn he hm hnl hel]
    simp

theorem c7_witness :
    jsTrim "Ana" ≠ "" ∧ jsTrim "ana@x.co" ≠ "" ∧ jsTrim "Hola" ≠ "" ∧
    jsLength (jsTrim "Ana") ≤ 100 ∧ jsLength (jsTrim "ana@x.co") ≤ 100 ∧
    mongoPost ⟨[], 0⟩ 2 (some "ECONNRESET") (.str "Ana") (.str "ana@x.co") (.str "Hola") =
      (mongoDbErrorResp, ⟨[], 0⟩) ∧
    mysqlPost ⟨[], 1⟩ 2 (some "ECONNRESET") (.str "Ana") (.str "ana@x.co") (.str "Hola") =
      (.resp 500 mysqlStorageErrorBody, ⟨[], 1⟩) :=
  ⟨by decide, by decide, by decide, by decide, by decide,
   (c7_storage_error_isolated ⟨[], 0⟩ ⟨[], 1⟩ 2 "Ana" "ana@x.co" "Hola"
      (by decide) (by decide) (by decide) (by decide) (by decide)).1 "ECONNRESET",
   (c7_storage_error_isolated ⟨[], 0⟩ ⟨[], 1⟩ 2 "Ana" "ana@x.co" "Hola"
      (by decide) (by decide) (by decide) (by decide) (by decide)).2.2.1 "ECONNRESET"⟩

/-- C8: for every valid accepted triple whose insert succeeds, both variants
answer 201; the body carries the backend-assigned id of the new Submission,
and in the document variant also the `fecha` creation timestamp. -/
theorem c8_created_response (stM : MongoState) (stS : MysqlState) (now : Nat)
    (n e m : String)
    (hn : jsTrim n ≠ "") (he : jsTrim e ≠ "") (hm : jsTrim m ≠ "")
    (hnl : jsLength (jsTrim n) ≤ 100) (hel : jsLength (jsTrim e) ≤ 100) :
    (mongoPost stM now none (.str n) (.str e) (.str m)).1 =
      mongoCreatedResp stM.nextId now ∧
    (mongoCreatedResp stM.nextId now).status = 201 ∧
    (mongoCreatedResp stM.nextId now).body.dataId = some stM.nextId ∧
    (mongoCreatedResp stM.nextId now).body.dataCreatedAt = some now ∧
    (mysqlPost stS now none (.str n) (.str e) (.str m)).1 =
      .resp 201 (mysqlCreatedBody stS.nextId) ∧
    (mysqlCreatedBody stS.nextId).id = some stS.nextId := by
  refine ⟨?_, rfl, rfl, rfl, ?_, rfl⟩
  · rw [mongoPost_success stM now n e m hn he hm hnl]
  · rw [mysqlPost_success stS now n e m hn he hm hnl hel]

theorem c8_witness :
    jsTrim "Ana" ≠ "" ∧ jsTrim "ana@x.co" ≠ "" ∧ jsTrim "Hola" ≠ "" ∧
    jsLength (jsTrim "Ana") ≤ 100 ∧ jsLength (jsTrim "ana@x.co") ≤ 100 ∧
    (mongoPost ⟨[], 0⟩ 2 none (.str "Ana") (.str "ana@x.co") (.str "Hola")).1 =
      mongoCreatedResp 0 2 ∧
    (mysqlPost ⟨[], 1⟩ 2 none (.str "Ana") (.str "ana@x.co") (.str "Hola")).1 =
      .resp 201 (mysqlCreatedBody 1) :=
  ⟨by decide, by decide, by decide, by decide, by decide,
   (c8_created_response ⟨[], 0⟩ ⟨[], 1⟩ 2 "Ana" "ana@x.co" "Hola"
      (by decide) (by decide) (by decide) (by decide) (by decide)).1,
   (c8_created_response ⟨[], 0⟩ ⟨[], 1⟩ 2 "Ana" "ana@x.co" "Hola"
      (by decide) (by decide) (by decide) (by decide) (by decide)).2.2.2.2.1⟩

/-- C9 counterexample: on the body `(nombre: 5, email: absent,
mensaje: absent)` — which has a field present and truthy but not a string —
the tabular variant does *not* throw: JavaScript short-circuiting rejects on
the falsy `email` before `nombre.trim()` is reached, so the 400 validation
outcome is returned.  Likewise `(nombre: false, …)` — present, non-string,
not null — reaches the 400 branch, refuting "the 400 branch is reachable
only for string, null, or absent fields". -/
theorem c9_counterexample :
    (mysqlPost ⟨[], 1⟩ 0 none (.num 5) .undef .undef).1 =
      .resp 400 mysqlValidationBody ∧
    (mysqlPost ⟨[], 1⟩ 0 none (.num 5) .undef .undef).1 ≠ .thrown ∧
    (mysqlPost ⟨[], 1⟩ 0 none (.bool false) (.str "a@b.co") (.str "Hola")).1 =
      .resp 400 mysqlValidationBody := by decide

/-- C9 amended: a present, truthy, non-string field value makes `.trim()`
throw only when evaluation reaches it.  When the non-string is the *first*
field (`nombre`) and — for the tabular variant — the other fields are
truthy, the document variant answers 500 `DATABASE_ERROR` (the `TypeError`
is caught by its try/catch) and the tabular variant lets the synchronous
`TypeError` escape the handler; if an earlier check fails first, the 400
branch is taken instead, so 400 is also reachable on bodies containing
non-string fields. -/
theorem c9_amended_nonstring_trim_throw (stM : MongoState) (stS : MysqlState)
    (now : Nat) (dbM dbS : Option String) (v e m : JVal)
    (hvs : v.isString = false) (hvn : v.isNullish = false) (hvt : v.truthy = true)
    (het : e.truthy = true) (hmt : m.truthy = true) :
    mongoPost stM now dbM v e m = (mongoDbErrorResp, stM) ∧
    mysqlPost stS now dbS v e m = (.thrown, stS) := by
  have hval : notOptTrimTruthy v = .error () := by
    cases v <;> simp_all [notOptTrimTruthy, JVal.isString, JVal.isNullish]
  have htc : trimCall v = .error () := by
    cases v <;> simp_all [trimCall, JVal.isString]
  constructor
  · simp [mongoPost, mongoGuard, hval]
  · simp [mysqlPost, validarDatos, hvt, het, hmt, htc]

theorem c9_amended_witness :
    (JVal.num 5).isString = false ∧ (JVal.num 5).isNullish = false ∧
    (JVal.num 5).truthy = true ∧
    (JVal.str "a@b.co").truthy = true ∧ (JVal.str "Hola").truthy = true ∧
    mongoPost ⟨[], 0⟩ 0 none (.num 5) (.str "a@b.co") (.str "Hola") =
      (mongoDbErrorResp, ⟨[], 0⟩) ∧
    mysqlPost ⟨[], 1⟩ 0 none (.num 5) (.str "a@b.co") (.str "Hola") =
      (.thrown, ⟨[], 1⟩) :=
  ⟨by decide, by decide, by decide, by decide, by decide,
   (c9_amended_nonstring_trim_throw ⟨[], 0⟩ ⟨[], 1⟩ 0 none none
      (.num 5) (.str "a@b.co") (.str "Hola")
      (by decide) (by decide) (by decide) (by decide) (by decide)).1,
   (c9_amended_nonstring_trim_throw ⟨[], 0⟩ ⟨[], 1⟩ 0 none none
      (.num 5) (.str "a@b.co") (.str "Hola")
      (by decide) (by decide) (by decide) (by decide) (by decide)).2⟩

/-- C10: in the tabular variant the `email` column is `VARCHAR(100)`, so a
request whose trimmed email exceeds 100 characters passes `validarDatos` but
the insert fails with a storage error (500, state unchanged); and every
reachable state keeps the invariant that all persisted rows have an email of
length at most 100. -/
theorem c10_tabular_email_bound (stS : MysqlState) (now : Nat) (n e m : String)
    (hn : jsTrim n ≠ "") (hm : jsTrim m ≠ "")
    (hel : 100 < jsLength (jsTrim e)) :
    validarDatos (.str n) (.str e) (.str m) = .ok true ∧
    mysqlPost stS now none (.str n) (.str e) (.str m) =
      (.resp 500 mysqlStorageErrorBody, stS) ∧
    (∀ st' now' db' a b c, (∀ r ∈ st'.rows, jsLength r.email ≤ 100) →
      ∀ r ∈ (mysqlPost st' now' db' a b c).2.rows, jsLength r.email ≤ 100) := by
  have he : jsTrim e ≠ "" := by
    intro h
    rw [h] at hel
    simp [jsLength] at hel
  refine ⟨validarDatos_valid_strings n e m hn he hm, ?_, ?_⟩
  · simp [mysqlPost, validarDatos_valid_strings n e m hn he hm, hel]
  · intro st' now' db' a b c hinv r hr
    cases hva : validarDatos a b c with
    | error err =>
      simp only [mysqlPost, hva] at hr
      exact hinv r hr
    | ok bv =>
      cases bv with
      | false =>
        simp only [mysqlPost, hva] at hr
        exact hinv r hr
      | true =>
        cases a <;> cases b <;> cases c <;>
          try (simp only [mysqlPost, hva] at hr; exact hinv r hr)
        case str.str.str sn se sm =>
          cases db' with
          | some msg =>
            simp only [mysqlPost, hva] at hr
            exact hinv r hr
          | none =>
            by_cases hb : 100 < jsLength (jsTrim sn) ∨ 100 < jsLength (jsTrim se)
            · simp [mysqlPost, hva, hb] at hr
              exact hinv r hr
            · simp [mysqlPost, hva, hb] at hr
              rcases hr with h1 | h2
              · exact hinv r h1
              · rw [h2]
                push_neg at hb
                exact Nat.le_of_not_lt (Nat.not_lt.mpr hb.2)

theorem c10_witness :
    jsTrim "Ana" ≠ "" ∧ jsTrim "Hola" ≠ "" ∧
    100 < jsLength (jsTrim longEmail) ∧
    validarDatos (.str "Ana") (.str longEmail) (.str "Hola") = .ok true ∧
    mysqlPost ⟨[], 1⟩ 6 none (.str "Ana") (.str longEmail) (.str "Hola") =
      (.resp 500 mysqlStorageErrorBody, ⟨[], 1⟩) :=
  ⟨by decide, by decide, by decide,
   (c10_tabular_email_bound ⟨[], 1⟩ 6 "Ana" longEmail "Hola"
      (by decide) (by decide) (by decide)).1,
   (c10_tabular_email_bound ⟨[], 1⟩ 6 "Ana" longEmail "Hola"
      (by decide) (by decide) (by decide)).2.1⟩
